import Mathlib

/-!
Shallow embedding of `src/git-manager.py` (Unified GitHub Manager + Local Sync).

External effects (console prints, interactive prompts, subprocess launches,
directory creation, log appends, temp-dir removal, remote API calls) are
recorded as an explicit trace of `Event`s.  Subprocess exit codes and
user answers are inputs of the embedded functions, so every control path
of the Python source is a value of the Lean function on some input.
-/

namespace GitManager

/-- One observable external effect of the program. -/
inductive Event where
  /-- `console.print msg` (rich markup dropped, text kept). -/
  | consolePrint (msg : String)
  /-- `Prompt.ask question` answered with `answer`. -/
  | promptAsk (question answer : String)
  /-- A subprocess launched via `subprocess.run cmd`, exiting with `exitCode`. -/
  | runCmd (cmd : List String) (exitCode : Nat)
  /-- `os.makedirs path (exist_ok := True)`. -/
  | makeDirs (path : String)
  /-- `log_action msg`: one line appended to the action log. -/
  | logEntry (msg : String)
  /-- `shutil.rmtree dir` attempted on the scratch directory. -/
  | rmtreeAttempt (dir : String)
  /-- GitPython `git.Repo.clone_from url dest` in the upload helper. -/
  | cloneFrom (url dest : String)
  /-- `shutil.copytree` / `shutil.copy2` overlay step of the upload helper. -/
  | copyOverlay (src dest : String)
  /-- GitPython `git_repo.git.add (A := True)` in the upload helper. -/
  | gitAddAll
  /-- GitPython `git_repo.index.commit msg` in the upload helper. -/
  | indexCommit (msg : String)
  /-- GitPython `origin.push` in the upload helper. -/
  | originPush
  /-- Remote API request `DELETE /git/refs/<ref>` (PyGithub `ref.delete`). -/
  | apiDeleteRef (ref : String)
  /-- Remote API request `GET /git/refs/<ref>` (PyGithub `repo.get_git_ref`). -/
  | apiGetRef (ref : String)
  deriving Repr, DecidableEq

/-- Python `s.startswith(pre)` (structurally recursive so that concrete
instances reduce inside the kernel). -/
def strStartsWith (pre s : String) : Bool :=
  pre.data.isPrefixOf s.data

/-- Python `c in s` for a single character. -/
def strHasChar (s : String) (c : Char) : Bool :=
  s.data.contains c

/-- `needle` is a contiguous run inside `hay`. -/
def listHasRun (needle : List Char) : List Char → Bool
  | [] => needle.isEmpty
  | x :: rest => needle.isPrefixOf (x :: rest) || listHasRun needle rest

/-- `needle` occurs somewhere in `hay` (Python `needle in hay` on strings). -/
def occursIn (needle hay : String) : Bool :=
  listHasRun needle.data hay.data

/-- Python `s.strip()`: drop leading and trailing whitespace. -/
def pyStrip (s : String) : String :=
  ⟨((s.data.dropWhile Char.isWhitespace).reverse.dropWhile
      Char.isWhitespace).reverse⟩

/-- Fuel-driven core of `str.replace` for a non-empty pattern:
left-to-right, non-overlapping.  The fuel starts at `length + 1` and
bounds the recursion structurally so the kernel can reduce it. -/
def replaceFuel (pat rep : List Char) : Nat → List Char → List Char
  | 0, hay => hay
  | _ + 1, [] => []
  | fuel + 1, c :: rest =>
      if pat.isPrefixOf (c :: rest) && !pat.isEmpty then
        rep ++ replaceFuel pat rep fuel ((c :: rest).drop pat.length)
      else
        c :: replaceFuel pat rep fuel rest

/-- Python `s.replace(pat, rep)` for a non-empty pattern (the only
pattern the program uses is `https://`). -/
def pyReplace (s pat rep : String) : String :=
  ⟨replaceFuel pat.data rep.data (s.data.length + 1) s.data⟩

/-- Split a character list at every occurrence of `c` (Python
`s.split(sep)` for a one-character separator). -/
def splitChar (c : Char) : List Char → List (List Char)
  | [] => [[]]
  | x :: xs =>
      match splitChar c xs with
      | [] => [[]]
      | h :: t => if x = c then [] :: h :: t else (x :: h) :: t

/-- Python `repr` of a list of strings, as used by `"%s" % cmd` when
`subprocess.CalledProcessError` is formatted (strings assumed quote-free). -/
def pyListRepr (xs : List String) : String :=
  "[" ++ String.intercalate ", " (xs.map (fun s => "'" ++ s ++ "'")) ++ "]"

/-- `str(subprocess.CalledProcessError(code, cmd))` for a positive exit code:
`Command '<repr of cmd>' returned non-zero exit status <code>.` -/
def calledProcessErrorMsg (cmd : List String) (code : Nat) : String :=
  "Command '" ++ pyListRepr cmd ++ "' returned non-zero exit status " ++
    toString code ++ "."

/-- `os.path.dirname` for ordinary (non-root-relative) paths: everything
before the last slash. -/
def dirname (p : String) : String :=
  String.intercalate "/" (((splitChar '/' p.data).dropLast).map String.mk)

/-- Trace of `run_shell cmd` (always called with `silent := False`): it
prints the joined command, launches it with `check := True`, and raises
`CalledProcessError` on a non-zero exit (raising is modelled at each
call site from the recorded exit code). -/
def run_shell (cmd : List String) (exitCode : Nat) : List Event :=
  [Event.consolePrint ("🚀 Running: " ++ String.intercalate " " cmd),
   Event.runCmd cmd exitCode]

/-- The token-injection expression of `ensure_local_repo` (lines 406-411):
`if repo_url.startswith("https://") and "@" not in repo_url and token:`
rewrite `https://` to `https://<token>@`, else keep the URL.  `token` is
`Optional[str]` and Python truthiness rejects `None` and the empty string. -/
def safe_clone_url (repo_url : String) (token : Option String) : String :=
  match token with
  | none => repo_url
  | some t =>
      if strStartsWith "https://" repo_url && !strHasChar repo_url '@' && t ≠ "" then
        pyReplace repo_url "https://" ("https://" ++ t ++ "@")
      else
        repo_url

/-- The URL rewrite of `fix_local_remote_with_token` (lines 424-434):
returns `some newUrl` exactly when a `git remote set-url` is issued,
`none` when the origin URL is left untouched. -/
def fix_local_remote_with_token (origin_url token : String) : Option String :=
  if strStartsWith "https://" origin_url && !strHasChar origin_url '@' then
    some (pyReplace origin_url "https://" ("https://" ++ token ++ "@"))
  else
    none

/-- The filesystem as seen through `os.path.isdir`. -/
structure FS where
  isDir : String → Bool

/-- Effect of one recorded event back on the filesystem: `makedirs`
creates the path and its ancestors, a successful `git clone` creates the
destination directory and its `.git`; every other event leaves the
filesystem alone. -/
def applyEvent (fs : FS) : Event → FS
  | Event.makeDirs p =>
      ⟨fun q => fs.isDir q || (q ++ "/").isPrefixOf (p ++ "/")⟩
  | Event.runCmd ["git", "clone", _, dest] 0 =>
      ⟨fun q => fs.isDir q || q = dest || q = dest ++ "/.git"⟩
  | _ => fs

/-- Replay a whole trace on the filesystem. -/
def applyEvents (fs : FS) (evs : List Event) : FS :=
  evs.foldl applyEvent fs

/-- `ensure_local_repo repo_path (token := token)` (lines 384-421).
Inputs beyond the Python arguments: the current filesystem `fs`, the raw
answer to the 1/2 menu prompt, the URL the user types, and the exit code
the `git clone` subprocess would return.  Result: the returned `bool`
paired with the trace. -/
def ensure_local_repo (fs : FS) (repo_path : String) (token : Option String)
    (choiceAnswer cloneUrlAnswer : String) (cloneExit : Nat) :
    Bool × List Event :=
  if fs.isDir repo_path && fs.isDir (repo_path ++ "/.git") then
    (true, [])
  else
    let choice := pyStrip choiceAnswer
    let intro : List Event :=
      [Event.consolePrint ("⚠️ Repository not found at: " ++ repo_path),
       Event.consolePrint "1) Clone a new repository",
       Event.consolePrint "2) Cancel / Exit",
       Event.promptAsk "👉 Enter your choice (1-2)" choiceAnswer]
    if choice ≠ "1" then
      (false, intro ++ [Event.consolePrint "👋 Cancelled by user. Exiting local sync."])
    else
      let asked := intro ++
        [Event.promptAsk "🌐 Enter GitHub repository URL to clone (HTTPS preferred)"
          cloneUrlAnswer]
      if cloneUrlAnswer = "" then
        (false, asked ++ [Event.consolePrint "❌ No URL provided. Exiting..."])
      else
        let safe_url := safe_clone_url cloneUrlAnswer token
        let cloneCmd := ["git", "clone", safe_url, repo_path]
        let prepared := asked ++ [Event.makeDirs (dirname repo_path)] ++
          run_shell cloneCmd cloneExit
        if cloneExit = 0 then
          (true, prepared ++
            [Event.consolePrint ("✅ Repository cloned successfully into: " ++ repo_path),
             Event.logEntry ("Cloned repository from " ++ cloneUrlAnswer ++
               " to " ++ repo_path)])
        else
          let e := calledProcessErrorMsg cloneCmd cloneExit
          (false, prepared ++
            [Event.consolePrint ("❌ Failed to clone repository: " ++ e),
             Event.logEntry ("Failed to clone repository: " ++ e)])

/-- Whether the local menu loop continues with another iteration or
breaks out (the `break` on choice 4). -/
inductive LoopCtl where
  | cont
  | brk
  deriving Repr, DecidableEq

/-- A `run_shell` call inside a `try` block: record the print and the
launch, then raise `CalledProcessError` (as `Except.error` carrying the
trace so far and the formatted exception) when the exit code is non-zero. -/
def runShellE (soFar : List Event) (cmd : List String) (exitCode : Nat) :
    Except (List Event × String) (List Event) :=
  let evs := soFar ++ run_shell cmd exitCode
  if exitCode = 0 then .ok evs
  else .error (evs, calledProcessErrorMsg cmd exitCode)

/-- Body of menu choice 1 (Pull), lines 466-470, inside the `try`. -/
def pull_action (repo_path : String) (pullExit : Nat) :
    Except (List Event × String) (List Event) :=
  match runShellE [Event.consolePrint "🔄 Pulling latest changes..."]
      ["git", "-C", repo_path, "pull"] pullExit with
  | .error e => .error e
  | .ok evs =>
      .ok (evs ++
        [Event.consolePrint "✅ Repository updated successfully!",
         Event.logEntry ("Pulled latest changes in " ++ repo_path)])

/-- Body of menu choice 2 (Push), lines 472-483, inside the `try`.
`commit` is run without `check`, so its exit code only steers the branch;
`add` and `push` go through `run_shell` and raise on failure. -/
def push_action (repo_path commitMsg : String)
    (addExit commitExit pushExit : Nat) :
    Except (List Event × String) (List Event) :=
  match runShellE
      [Event.consolePrint "⬆️ Pushing local changes...",
       Event.promptAsk "Commit message (default)" commitMsg]
      ["git", "-C", repo_path, "add", "."] addExit with
  | .error e => .error e
  | .ok evs =>
      let evs := evs ++
        [Event.runCmd ["git", "-C", repo_path, "commit", "-m", commitMsg] commitExit]
      if commitExit = 0 then
        match runShellE evs ["git", "-C", repo_path, "push"] pushExit with
        | .error e => .error e
        | .ok evs =>
            .ok (evs ++
              [Event.consolePrint "✅ Successfully pushed to GitHub!",
               Event.logEntry ("Pushed changes in " ++ repo_path ++
                 " with message: " ++ commitMsg)])
      else
        .ok (evs ++
          [Event.consolePrint "ℹ️ Nothing to commit (working tree clean).",
           Event.logEntry ("Nothing to commit in " ++ repo_path)])

/-- Body of menu choice 3 (Sync), lines 485-497, inside the `try`. -/
def sync_action (repo_path commitMsg : String)
    (pullExit addExit commitExit pushExit : Nat) :
    Except (List Event × String) (List Event) :=
  match runShellE
      [Event.consolePrint "🔁 Syncing repository (pull then push)..."]
      ["git", "-C", repo_path, "pull"] pullExit with
  | .error e => .error e
  | .ok evs =>
      match runShellE
          (evs ++ [Event.promptAsk "Commit message (default)" commitMsg])
          ["git", "-C", repo_path, "add", "."] addExit with
      | .error e => .error e
      | .ok evs =>
          let evs := evs ++
            [Event.runCmd ["git", "-C", repo_path, "commit", "-m", commitMsg]
              commitExit]
          if commitExit = 0 then
            match runShellE evs ["git", "-C", repo_path, "push"] pushExit with
            | .error e => .error e
            | .ok evs =>
                .ok (evs ++
                  [Event.consolePrint "✅ Repository synced successfully!",
                   Event.logEntry ("Synced repository " ++ repo_path ++
                     " with message: " ++ commitMsg)])
          else
            .ok (evs ++
              [Event.consolePrint "ℹ️ Nothing to sync (working tree clean).",
               Event.logEntry ("Nothing to sync in " ++ repo_path)])

/-- The nested `show_menu_local` of `local_git_menu` (lines 455-461):
render the menu panel and options and read the choice. -/
def show_menu_local (repo_path choiceAnswer : String) : List Event :=
  [Event.consolePrint ("📂 GIT ACTIONS — Local Repo: " ++ repo_path),
   Event.consolePrint "1) Pull (update from GitHub)",
   Event.consolePrint "2) Push (upload local changes)",
   Event.consolePrint "3) Sync (pull + push)",
   Event.consolePrint "4) Exit",
   Event.promptAsk "👉 Enter your choice (1-4): " choiceAnswer]

/-- One iteration of the `while True` loop of `local_git_menu`
(lines 463-508): render the menu, read a choice, dispatch inside a
`try`, and catch `subprocess.CalledProcessError` by printing and logging
the failure and continuing the loop. -/
def local_git_menu_step (repo_path choiceAnswer commitMsg : String)
    (pullExit addExit commitExit pushExit : Nat) : LoopCtl × List Event :=
  let menuEvs := show_menu_local repo_path choiceAnswer
  let choice := pyStrip choiceAnswer
  let body : Except (List Event × String) (LoopCtl × List Event) :=
    if choice = "1" then
      match pull_action repo_path pullExit with
      | .ok evs => .ok (LoopCtl.cont, evs)
      | .error e => .error e
    else if choice = "2" then
      match push_action repo_path commitMsg addExit commitExit pushExit with
      | .ok evs => .ok (LoopCtl.cont, evs)
      | .error e => .error e
    else if choice = "3" then
      match sync_action repo_path commitMsg pullExit addExit commitExit pushExit with
      | .ok evs => .ok (LoopCtl.cont, evs)
      | .error e => .error e
    else if choice = "4" then
      .ok (LoopCtl.brk,
        [Event.consolePrint "👋 Exiting local git menu.",
         Event.logEntry ("Exited local git menu for " ++ repo_path)])
    else
      .ok (LoopCtl.cont, [Event.consolePrint "⚠️ Invalid choice. Try again."])
  match body with
  | .ok (ctl, evs) => (ctl, menuEvs ++ evs)
  | .error (evs, e) =>
      (LoopCtl.cont, menuEvs ++ evs ++
        [Event.consolePrint ("❌ Git command failed: " ++ e),
         Event.logEntry ("Git command failed for " ++ repo_path ++ ": " ++ e)])

/-- Outcome of each fallible step of `upload_file_to_github`:
`none` means the step succeeds, `some e` means it raises an exception
rendered as `e`. -/
structure UploadOutcome where
  cloneErr : Option String
  copyErr : Option String
  addErr : Option String
  commitErr : Option String
  pushErr : Option String
  deriving Repr, DecidableEq

/-- The first exception raised along the clone → copy → add → commit →
push sequence, if any. -/
def firstErr (o : UploadOutcome) : Option String :=
  o.cloneErr <|> o.copyErr <|> o.addErr <|> o.commitErr <|> o.pushErr

/-- A fallible step: record its launch events, then raise when the
outcome says so. -/
def stepE (evs : List Event) (err : Option String) :
    Except (List Event × String) (List Event) :=
  match err with
  | some e => .error (evs, e)
  | none => .ok evs

/-- The `try` block of `upload_file_to_github` (lines 332-362). -/
def upload_try (repoName fullName owner branch commitMsg token
    tempDir filePath : String) (o : UploadOutcome) :
    Except (List Event × String) (List Event) :=
  let repo_url := "https://" ++ token ++ "@github.com/" ++ owner ++ "/" ++
    repoName ++ ".git"
  match stepE
      [Event.consolePrint ("Cloning repo " ++ repoName ++ " into " ++ tempDir),
       Event.cloneFrom repo_url tempDir] o.cloneErr with
  | .error e => .error e
  | .ok evs =>
  match stepE (evs ++ [Event.copyOverlay filePath tempDir]) o.copyErr with
  | .error e => .error e
  | .ok evs =>
  match stepE (evs ++ [Event.gitAddAll]) o.addErr with
  | .error e => .error e
  | .ok evs =>
  match stepE (evs ++ [Event.indexCommit commitMsg]) o.commitErr with
  | .error e => .error e
  | .ok evs =>
  match stepE (evs ++ [Event.originPush]) o.pushErr with
  | .error e => .error e
  | .ok evs =>
      .ok (evs ++
        [Event.consolePrint ("✅ Successfully pushed to " ++ repoName ++ ":" ++ branch),
         Event.logEntry ("Pushed to " ++ fullName ++ "@" ++ branch ++
           " with message: " ++ commitMsg)])

/-- `upload_file_to_github` (lines 321-371): `try` body, `except` that
prints and logs the exception and returns `False`, and `finally` that
attempts `shutil.rmtree temp_dir` on every path. -/
def upload_file_to_github (repoName fullName owner branch commitMsg token
    tempDir filePath : String) (o : UploadOutcome) : Bool × List Event :=
  match upload_try repoName fullName owner branch commitMsg token
      tempDir filePath o with
  | .ok evs => (true, evs ++ [Event.rmtreeAttempt tempDir])
  | .error (evs, e) =>
      (false, evs ++
        [Event.consolePrint ("Error uploading to GitHub: " ++ e),
         Event.logEntry ("Error uploading to GitHub: " ++ e),
         Event.rmtreeAttempt tempDir])

/-- `delete_branch` (lines 219-230): prompt for a branch name; refuse to
touch the default branch; otherwise fetch the ref and issue the remote
deletion, catching API errors.  `getRefErr` / `deleteErr` are the
exceptions the two remote calls would raise (`none` = success). -/
def delete_branch (enteredName defaultBranch fullName : String)
    (getRefErr deleteErr : Option String) : List Event :=
  let intro := [Event.promptAsk "Branch name to delete" enteredName]
  if enteredName = defaultBranch then
    intro ++ [Event.consolePrint
      "Cannot delete the default branch via this tool. Change default first."]
  else
    let ref := "heads/" ++ enteredName
    match getRefErr with
    | some e =>
        intro ++ [Event.apiGetRef ref,
          Event.consolePrint ("Delete branch failed: " ++ e)]
    | none =>
        match deleteErr with
        | some e =>
            intro ++ [Event.apiGetRef ref, Event.apiDeleteRef ref,
              Event.consolePrint ("Delete branch failed: " ++ e)]
        | none =>
            intro ++ [Event.apiGetRef ref, Event.apiDeleteRef ref,
              Event.consolePrint ("🗑️ Deleted branch: " ++ enteredName),
              Event.logEntry ("Deleted branch " ++ enteredName ++ " in " ++ fullName)]

/-- Observer: the git sub-command of a subprocess launch event, when it is
one (`git -C <path> <verb> ...` or `git clone ...`). -/
def gitVerb? : Event → Option String
  | Event.runCmd ("git" :: "-C" :: _ :: verb :: _) _ => some verb
  | Event.runCmd ("git" :: "clone" :: _) _ => some "clone"
  | _ => none

/-- Observer: the git sub-command together with the recorded exit code. -/
def gitVerbExit? : Event → Option (String × Nat)
  | Event.runCmd ("git" :: "-C" :: _ :: verb :: _) x => some (verb, x)
  | Event.runCmd ("git" :: "clone" :: _) x => some ("clone", x)
  | _ => none

/-- How many subprocess launches of the given git sub-command a trace holds. -/
def countVerb (evs : List Event) (verb : String) : Nat :=
  (evs.filter (fun e => gitVerb? e = some verb)).length

/-- How many subprocess launches of the given git sub-command exited with
the given code. -/
def countVerbExit (evs : List Event) (verb : String) (x : Nat) : Nat :=
  (evs.filter (fun e => gitVerbExit? e = some (verb, x))).length

/-- How many subprocess launch events a trace holds at all. -/
def countRuns (evs : List Event) : Nat :=
  (evs.filter (fun e => match e with | Event.runCmd _ _ => true | _ => false)).length

/-- The `except subprocess.CalledProcessError` handler's console line. -/
def isFailurePrint : Event → Bool
  | Event.consolePrint m => strStartsWith "❌ Git command failed: " m
  | _ => false

/-- The `except subprocess.CalledProcessError` handler's log line. -/
def isFailureLog : Event → Bool
  | Event.logEntry m => strStartsWith "Git command failed for " m
  | _ => false

/-- A launch of one of the `check := True` commands of the local menu
(`pull`, `add`, `push`) that exited non-zero, i.e. a raised
`CalledProcessError`. -/
def isCheckedFailure : Event → Bool
  | Event.runCmd ("git" :: "-C" :: _ :: verb :: _) x =>
      (verb = "pull" || verb = "add" || verb = "push") && x ≠ 0
  | _ => false

/-- A scratch-directory removal attempt. -/
def isRmtree : Event → Bool
  | Event.rmtreeAttempt _ => true
  | _ => false

/-! ## Theorems -/

/-- The clone-error console line of `ensure_local_repo`, carrying the
given token somewhere in its text. -/
def cloneErrPrintLeaks (tok : String) : Event → Bool
  | Event.consolePrint m =>
      strStartsWith "❌ Failed to clone repository: " m && occursIn tok m
  | _ => false

/-- The clone-error action-log entry of `ensure_local_repo`, carrying the
given token somewhere in its text. -/
def cloneErrLogLeaks (tok : String) : Event → Bool
  | Event.logEntry m =>
      strStartsWith "Failed to clone repository: " m && occursIn tok m
  | _ => false

/-- C1: the claim states that on a failed clone with an injected token,
neither the displayed error message nor the action-log entry contains the
token.  The code violates this: `str(CalledProcessError)` embeds the full
command, whose URL argument carries the injected token, and
`ensure_local_repo` interpolates that string into both the console
message and the log entry.  At filesystem `∅`, token `SECRETTOKEN`,
choice `1`, URL `https://github.com/u/r.git`, clone exit 128, both the
clone-failure print and the clone-failure log entry contain
`SECRETTOKEN`. -/
theorem C1_clone_failure_leaks_token :
    (ensure_local_repo ⟨fun _ => false⟩ "/tmp/x" (some "SECRETTOKEN")
        "1" "https://github.com/u/r.git" 128).1 = false ∧
    ((ensure_local_repo ⟨fun _ => false⟩ "/tmp/x" (some "SECRETTOKEN")
        "1" "https://github.com/u/r.git" 128).2.any
      (cloneErrPrintLeaks "SECRETTOKEN")) = true ∧
    ((ensure_local_repo ⟨fun _ => false⟩ "/tmp/x" (some "SECRETTOKEN")
        "1" "https://github.com/u/r.git" 128).2.any
      (cloneErrLogLeaks "SECRETTOKEN")) = true := by
  refine ⟨rfl, rfl, rfl⟩

/-- C4: on a filesystem where the target path is a directory containing
`.git`, `ensure_local_repo` returns `True` with an empty trace — no
prompt, no clone, no filesystem change — and calling it again on the
filesystem that results from replaying that (empty) trace again returns
`True` with an empty trace. -/
theorem C4_ensure_checkout_idempotent (fs : FS) (p : String)
    (tok : Option String) (c u : String) (x : Nat)
    (h1 : fs.isDir p = true) (h2 : fs.isDir (p ++ "/.git") = true) :
    ensure_local_repo fs p tok c u x = (true, []) ∧
    ensure_local_repo
      (applyEvents fs (ensure_local_repo fs p tok c u x).2) p tok c u x =
      (true, []) := by
  have e1 : ensure_local_repo fs p tok c u x = (true, []) := by
    simp [ensure_local_repo, h1, h2]
  refine ⟨e1, ?_⟩
  rw [e1]
  simpa [applyEvents] using e1

/-- C4 witness: a concrete filesystem holding `/r` and `/r/.git`. -/
theorem C4_ensure_checkout_idempotent_witness :
    ensure_local_repo ⟨fun q => q = "/r" || q = "/r/.git"⟩ "/r"
      (some "T") "2" "u" 0 = (true, []) ∧
    ensure_local_repo
      (applyEvents ⟨fun q => q = "/r" || q = "/r/.git"⟩
        (ensure_local_repo ⟨fun q => q = "/r" || q = "/r/.git"⟩ "/r"
          (some "T") "2" "u" 0).2) "/r" (some "T") "2" "u" 0 =
      (true, []) :=
  C4_ensure_checkout_idempotent ⟨fun q => q = "/r" || q = "/r/.git"⟩ "/r"
    (some "T") "2" "u" 0 (by decide) (by decide)

/-- C5: when the target path is not a directory and the user's (stripped)
menu answer differs from `1`, `ensure_local_repo` returns `False` after
printing the cancellation line; the trace holds no `makedirs`, no
subprocess launch, and replaying it leaves the filesystem unchanged. -/
theorem C5_decline_clone_cancels_without_fs_change (fs : FS)
    (p : String) (tok : Option String) (c u : String) (x : Nat)
    (h1 : fs.isDir p = false) (h2 : pyStrip c ≠ "1") :
    (ensure_local_repo fs p tok c u x).1 = false ∧
    Event.consolePrint "👋 Cancelled by user. Exiting local sync." ∈
      (ensure_local_repo fs p tok c u x).2 ∧
    ((ensure_local_repo fs p tok c u x).2.countP
      (fun e => match e with | Event.makeDirs _ => true | _ => false)) = 0 ∧
    countRuns (ensure_local_repo fs p tok c u x).2 = 0 ∧
    applyEvents fs (ensure_local_repo fs p tok c u x).2 = fs := by
  have e1 : ensure_local_repo fs p tok c u x =
      (false,
        [Event.consolePrint ("⚠️ Repository not found at: " ++ p),
         Event.consolePrint "1) Clone a new repository",
         Event.consolePrint "2) Cancel / Exit",
         Event.promptAsk "👉 Enter your choice (1-2)" c,
         Event.consolePrint "👋 Cancelled by user. Exiting local sync."]) := by
    simp [ensure_local_repo, h1, h2]
  rw [e1]
  refine ⟨rfl, by simp, rfl, rfl, rfl⟩

/-- C5 witness: empty filesystem, answer `2`. -/
theorem C5_decline_clone_cancels_without_fs_change_witness :
    (ensure_local_repo ⟨fun _ => false⟩ "/tmp/x" (some "T") "2" "u" 0).1 =
      false ∧
    Event.consolePrint "👋 Cancelled by user. Exiting local sync." ∈
      (ensure_local_repo ⟨fun _ => false⟩ "/tmp/x" (some "T") "2" "u" 0).2 ∧
    ((ensure_local_repo ⟨fun _ => false⟩ "/tmp/x" (some "T") "2" "u" 0).2.countP
      (fun e => match e with | Event.makeDirs _ => true | _ => false)) = 0 ∧
    countRuns (ensure_local_repo ⟨fun _ => false⟩ "/tmp/x" (some "T") "2" "u" 0).2 = 0 ∧
    applyEvents ⟨fun _ => false⟩
      (ensure_local_repo ⟨fun _ => false⟩ "/tmp/x" (some "T") "2" "u" 0).2 =
      ⟨fun _ => false⟩ :=
  C5_decline_clone_cancels_without_fs_change ⟨fun _ => false⟩ "/tmp/x"
    (some "T") "2" "u" 0 rfl (by decide)

/-- C6: token injection — both in `ensure_local_repo`'s clone-URL
rewrite and in `fix_local_remote_with_token` — leaves any URL containing
`@` (in particular any URL with user-info credentials) unchanged, and any
URL it does rewrite is a plain `https://` URL without `@`; every other
URL passes through unchanged (for the remote repair, `none` means no
`set-url` is issued). -/
theorem C6_token_injection_only_plain_https (url t tokCfg : String) :
    (strHasChar url '@' = true →
      safe_clone_url url (some t) = url ∧
      fix_local_remote_with_token url tokCfg = none) ∧
    (safe_clone_url url (some t) ≠ url →
      strStartsWith "https://" url = true ∧ strHasChar url '@' = false) ∧
    (∀ u, fix_local_remote_with_token url tokCfg = some u →
      strStartsWith "https://" url = true ∧ strHasChar url '@' = false) ∧
    safe_clone_url url none = url := by
  refine ⟨?_, ?_, ?_, rfl⟩
  · intro hat
    constructor
    · simp [safe_clone_url, hat]
    · simp [fix_local_remote_with_token, hat]
  · intro hch
    by_cases hp : strStartsWith "https://" url
    · by_cases hat : strHasChar url '@'
      · exact absurd (by simp [safe_clone_url, hat]) hch
      · exact ⟨hp, by simpa using hat⟩
    · exact absurd (by simp [safe_clone_url, hp]) hch
  · intro u hu
    by_cases hp : strStartsWith "https://" url
    · by_cases hat : strHasChar url '@'
      · simp [fix_local_remote_with_token, hat] at hu
      · exact ⟨hp, by simpa using hat⟩
    · simp [fix_local_remote_with_token, hp] at hu

/-- C6 witness: a credentialed URL is left untouched by both rewrites. -/
theorem C6_token_injection_only_plain_https_witness :
    safe_clone_url "https://user:pw@github.com/u/r.git" (some "TOK") =
      "https://user:pw@github.com/u/r.git" ∧
    fix_local_remote_with_token "https://user:pw@github.com/u/r.git" "TOK" =
      none :=
  (C6_token_injection_only_plain_https "https://user:pw@github.com/u/r.git"
    "TOK" "TOK").1 (by decide)

/-- C10: when the branch name the user enters is exactly the repository's
default branch, `delete_branch` produces only the prompt and the warning
line — no `get_git_ref` call, no remote deletion request, and no log
entry — for every outcome the remote calls would have had. -/
theorem C10_default_branch_never_deleted (name fullName : String)
    (getRefErr deleteErr : Option String) :
    delete_branch name name fullName getRefErr deleteErr =
      [Event.promptAsk "Branch name to delete" name,
       Event.consolePrint
         "Cannot delete the default branch via this tool. Change default first."] := by
  simp [delete_branch]

/-! Evaluation lemmas for the three menu actions, one per control path. -/

lemma pull_action_ok (p : String) :
    pull_action p 0 =
      .ok [Event.consolePrint "🔄 Pulling latest changes...",
           Event.consolePrint ("🚀 Running: " ++ String.intercalate " " ["git", "-C", p, "pull"]),
           Event.runCmd ["git", "-C", p, "pull"] 0,
           Event.consolePrint "✅ Repository updated successfully!",
           Event.logEntry ("Pulled latest changes in " ++ p)] := by
  simp [pull_action, runShellE, run_shell]

lemma pull_action_fail (p : String) (pe : Nat) (h : pe ≠ 0) :
    pull_action p pe =
      .error ([Event.consolePrint "🔄 Pulling latest changes...",
               Event.consolePrint ("🚀 Running: " ++ String.intercalate " " ["git", "-C", p, "pull"]),
               Event.runCmd ["git", "-C", p, "pull"] pe],
              calledProcessErrorMsg ["git", "-C", p, "pull"] pe) := by
  simp [pull_action, runShellE, run_shell, h]

lemma push_action_add_fail (p m : String) (ae ce pu : Nat) (h : ae ≠ 0) :
    push_action p m ae ce pu =
      .error ([Event.consolePrint "⬆️ Pushing local changes...",
               Event.promptAsk "Commit message (default)" m,
               Event.consolePrint ("🚀 Running: " ++ String.intercalate " " ["git", "-C", p, "add", "."]),
               Event.runCmd ["git", "-C", p, "add", "."] ae],
              calledProcessErrorMsg ["git", "-C", p, "add", "."] ae) := by
  simp [push_action, runShellE, run_shell, h]

lemma push_action_nothing (p m : String) (ce pu : Nat) (h : ce ≠ 0) :
    push_action p m 0 ce pu =
      .ok ([Event.consolePrint "⬆️ Pushing local changes...",
            Event.promptAsk "Commit message (default)" m,
            Event.consolePrint ("🚀 Running: " ++ String.intercalate " " ["git", "-C", p, "add", "."]),
            Event.runCmd ["git", "-C", p, "add", "."] 0,
            Event.runCmd ["git", "-C", p, "commit", "-m", m] ce] ++
           [Event.consolePrint "ℹ️ Nothing to commit (working tree clean).",
            Event.logEntry ("Nothing to commit in " ++ p)]) := by
  simp [push_action, runShellE, run_shell, h]

lemma push_action_push_ok (p m : String) :
    push_action p m 0 0 0 =
      .ok ([Event.consolePrint "⬆️ Pushing local changes...",
            Event.promptAsk "Commit message (default)" m,
            Event.consolePrint ("🚀 Running: " ++ String.intercalate " " ["git", "-C", p, "add", "."]),
            Event.runCmd ["git", "-C", p, "add", "."] 0,
            Event.runCmd ["git", "-C", p, "commit", "-m", m] 0,
            Event.consolePrint ("🚀 Running: " ++ String.intercalate " " ["git", "-C", p, "push"]),
            Event.runCmd ["git", "-C", p, "push"] 0] ++
           [Event.consolePrint "✅ Successfully pushed to GitHub!",
            Event.logEntry ("Pushed changes in " ++ p ++ " with message: " ++ m)]) := by
  simp [push_action, runShellE, run_shell]

lemma push_action_push_fail (p m : String) (pu : Nat) (h : pu ≠ 0) :
    push_action p m 0 0 pu =
      .error ([Event.consolePrint "⬆️ Pushing local changes...",
               Event.promptAsk "Commit message (default)" m,
               Event.consolePrint ("🚀 Running: " ++ String.intercalate " " ["git", "-C", p, "add", "."]),
               Event.runCmd ["git", "-C", p, "add", "."] 0,
               Event.runCmd ["git", "-C", p, "commit", "-m", m] 0,
               Event.consolePrint ("🚀 Running: " ++ String.intercalate " " ["git", "-C", p, "push"]),
               Event.runCmd ["git", "-C", p, "push"] pu],
              calledProcessErrorMsg ["git", "-C", p, "push"] pu) := by
  simp [push_action, runShellE, run_shell, h]

lemma sync_action_pull_fail (p m : String) (pe ae ce pu : Nat) (h : pe ≠ 0) :
    sync_action p m pe ae ce pu =
      .error ([Event.consolePrint "🔁 Syncing repository (pull then push)...",
               Event.consolePrint ("🚀 Running: " ++ String.intercalate " " ["git", "-C", p, "pull"]),
               Event.runCmd ["git", "-C", p, "pull"] pe],
              calledProcessErrorMsg ["git", "-C", p, "pull"] pe) := by
  simp [sync_action, runShellE, run_shell, h]

lemma sync_action_add_fail (p m : String) (ae ce pu : Nat) (h : ae ≠ 0) :
    sync_action p m 0 ae ce pu =
      .error ([Event.consolePrint "🔁 Syncing repository (pull then push)...",
               Event.consolePrint ("🚀 Running: " ++ String.intercalate " " ["git", "-C", p, "pull"]),
               Event.runCmd ["git", "-C", p, "pull"] 0,
               Event.promptAsk "Commit message (default)" m,
               Event.consolePrint ("🚀 Running: " ++ String.intercalate " " ["git", "-C", p, "add", "."]),
               Event.runCmd ["git", "-C", p, "add", "."] ae],
              calledProcessErrorMsg ["git", "-C", p, "add", "."] ae) := by
  simp [sync_action, runShellE, run_shell, h]

lemma sync_action_nothing (p m : String) (ce pu : Nat) (h : ce ≠ 0) :
    sync_action p m 0 0 ce pu =
      .ok ([Event.consolePrint "🔁 Syncing repository (pull then push)...",
            Event.consolePrint ("🚀 Running: " ++ String.intercalate " " ["git", "-C", p, "pull"]),
            Event.runCmd ["git", "-C", p, "pull"] 0,
            Event.promptAsk "Commit message (default)" m,
            Event.consolePrint ("🚀 Running: " ++ String.intercalate " " ["git", "-C", p, "add", "."]),
            Event.runCmd ["git", "-C", p, "add", "."] 0,
            Event.runCmd ["git", "-C", p, "commit", "-m", m] ce] ++
           [Event.consolePrint "ℹ️ Nothing to sync (working tree clean).",
            Event.logEntry ("Nothing to sync in " ++ p)]) := by
  simp [sync_action, runShellE, run_shell, h]

lemma sync_action_push_ok (p m : String) :
    sync_action p m 0 0 0 0 =
      .ok ([Event.consolePrint "🔁 Syncing repository (pull then push)...",
            Event.consolePrint ("🚀 Running: " ++ String.intercalate " " ["git", "-C", p, "pull"]),
            Event.runCmd ["git", "-C", p, "pull"] 0,
            Event.promptAsk "Commit message (default)" m,
            Event.consolePrint ("🚀 Running: " ++ String.intercalate " " ["git", "-C", p, "add", "."]),
            Event.runCmd ["git", "-C", p, "add", "."] 0,
            Event.runCmd ["git", "-C", p, "commit", "-m", m] 0,
            Event.consolePrint ("🚀 Running: " ++ String.intercalate " " ["git", "-C", p, "push"]),
            Event.runCmd ["git", "-C", p, "push"] 0] ++
           [Event.consolePrint "✅ Repository synced successfully!",
            Event.logEntry ("Synced repository " ++ p ++ " with message: " ++ m)]) := by
  simp [sync_action, runShellE, run_shell]

lemma sync_action_push_fail (p m : String) (pu : Nat) (h : pu ≠ 0) :
    sync_action p m 0 0 0 pu =
      .error ([Event.consolePrint "🔁 Syncing repository (pull then push)...",
               Event.consolePrint ("🚀 Running: " ++ String.intercalate " " ["git", "-C", p, "pull"]),
               Event.runCmd ["git", "-C", p, "pull"] 0,
               Event.promptAsk "Commit message (default)" m,
               Event.consolePrint ("🚀 Running: " ++ String.intercalate " " ["git", "-C", p, "add", "."]),
               Event.runCmd ["git", "-C", p, "add", "."] 0,
               Event.runCmd ["git", "-C", p, "commit", "-m", m] 0,
               Event.consolePrint ("🚀 Running: " ++ String.intercalate " " ["git", "-C", p, "push"]),
               Event.runCmd ["git", "-C", p, "push"] pu],
              calledProcessErrorMsg ["git", "-C", p, "push"] pu) := by
  simp [sync_action, runShellE, run_shell, h]

/-! Dispatch lemmas: how one menu iteration wraps each action's result. -/

lemma menu_step_one_ok (p cA m : String) (pe ae ce pu : Nat)
    (hc : pyStrip cA = "1") (evs : List Event)
    (he : pull_action p pe = .ok evs) :
    local_git_menu_step p cA m pe ae ce pu =
      (LoopCtl.cont, show_menu_local p cA ++ evs) := by
  simp [local_git_menu_step, hc, he]

lemma menu_step_one_error (p cA m : String) (pe ae ce pu : Nat)
    (hc : pyStrip cA = "1") (evs : List Event) (msg : String)
    (he : pull_action p pe = .error (evs, msg)) :
    local_git_menu_step p cA m pe ae ce pu =
      (LoopCtl.cont, show_menu_local p cA ++ evs ++
        [Event.consolePrint ("❌ Git command failed: " ++ msg),
         Event.logEntry ("Git command failed for " ++ p ++ ": " ++ msg)]) := by
  simp [local_git_menu_step, hc, he]

lemma menu_step_two_ok (p cA m : String) (pe ae ce pu : Nat)
    (hc : pyStrip cA = "2") (evs : List Event)
    (he : push_action p m ae ce pu = .ok evs) :
    local_git_menu_step p cA m pe ae ce pu =
      (LoopCtl.cont, show_menu_local p cA ++ evs) := by
  simp [local_git_menu_step, hc, he]

lemma menu_step_two_error (p cA m : String) (pe ae ce pu : Nat)
    (hc : pyStrip cA = "2") (evs : List Event) (msg : String)
    (he : push_action p m ae ce pu = .error (evs, msg)) :
    local_git_menu_step p cA m pe ae ce pu =
      (LoopCtl.cont, show_menu_local p cA ++ evs ++
        [Event.consolePrint ("❌ Git command failed: " ++ msg),
         Event.logEntry ("Git command failed for " ++ p ++ ": " ++ msg)]) := by
  simp [local_git_menu_step, hc, he]

lemma menu_step_three_ok (p cA m : String) (pe ae ce pu : Nat)
    (hc : pyStrip cA = "3") (evs : List Event)
    (he : sync_action p m pe ae ce pu = .ok evs) :
    local_git_menu_step p cA m pe ae ce pu =
      (LoopCtl.cont, show_menu_local p cA ++ evs) := by
  simp [local_git_menu_step, hc, he]

lemma menu_step_three_error (p cA m : String) (pe ae ce pu : Nat)
    (hc : pyStrip cA = "3") (evs : List Event) (msg : String)
    (he : sync_action p m pe ae ce pu = .error (evs, msg)) :
    local_git_menu_step p cA m pe ae ce pu =
      (LoopCtl.cont, show_menu_local p cA ++ evs ++
        [Event.consolePrint ("❌ Git command failed: " ++ msg),
         Event.logEntry ("Git command failed for " ++ p ++ ": " ++ msg)]) := by
  simp [local_git_menu_step, hc, he]

/-- C2: in a Sync invocation (menu choice 3) whose `git pull` exits
non-zero, the step surfaces the pull error (prints and logs it as its
final two actions) and returns to the loop, and the trace holds no
`add`, `commit`, or `push` subprocess launch at all. -/
theorem C2_sync_aborts_on_pull_failure (p m : String) (pe ae ce pu : Nat)
    (h : pe ≠ 0) :
    (local_git_menu_step p "3" m pe ae ce pu).1 = LoopCtl.cont ∧
    countVerb (local_git_menu_step p "3" m pe ae ce pu).2 "add" = 0 ∧
    countVerb (local_git_menu_step p "3" m pe ae ce pu).2 "commit" = 0 ∧
    countVerb (local_git_menu_step p "3" m pe ae ce pu).2 "push" = 0 ∧
    [Event.consolePrint ("❌ Git command failed: " ++
        calledProcessErrorMsg ["git", "-C", p, "pull"] pe),
     Event.logEntry ("Git command failed for " ++ p ++ ": " ++
        calledProcessErrorMsg ["git", "-C", p, "pull"] pe)] <:+
      (local_git_menu_step p "3" m pe ae ce pu).2 := by
  have e := menu_step_three_error p "3" m pe ae ce pu rfl _ _
    (sync_action_pull_fail p m pe ae ce pu h)
  rw [e]
  refine ⟨rfl, ?_, ?_, ?_, ?_⟩
  · simp [countVerb, gitVerb?, show_menu_local]
  · simp [countVerb, gitVerb?, show_menu_local]
  · simp [countVerb, gitVerb?, show_menu_local]
  · exact ⟨_, rfl⟩

/-- C2 witness: pull exit 1 at a concrete repository path. -/
theorem C2_sync_aborts_on_pull_failure_witness :
    (local_git_menu_step "/r" "3" "m" 1 0 0 0).1 = LoopCtl.cont ∧
    countVerb (local_git_menu_step "/r" "3" "m" 1 0 0 0).2 "add" = 0 ∧
    countVerb (local_git_menu_step "/r" "3" "m" 1 0 0 0).2 "commit" = 0 ∧
    countVerb (local_git_menu_step "/r" "3" "m" 1 0 0 0).2 "push" = 0 ∧
    [Event.consolePrint ("❌ Git command failed: " ++
        calledProcessErrorMsg ["git", "-C", "/r", "pull"] 1),
     Event.logEntry ("Git command failed for " ++ "/r" ++ ": " ++
        calledProcessErrorMsg ["git", "-C", "/r", "pull"] 1)] <:+
      (local_git_menu_step "/r" "3" "m" 1 0 0 0).2 :=
  C2_sync_aborts_on_pull_failure "/r" "m" 1 0 0 0 (by decide)

/-- C3: in a Push invocation (menu choice 2), a `push` subprocess is
launched exactly when the trace holds a `commit` subprocess that exited
0; and when `add` succeeds but `commit` exits non-zero, the step
finishes its success path (nothing-to-commit message, then the
nothing-to-commit log entry as the final event), launches no push, and
returns to the loop. -/
theorem C3_push_iff_commit_succeeds (p m : String) (pe ae ce pu : Nat) :
    (1 ≤ countVerb (local_git_menu_step p "2" m pe ae ce pu).2 "push" ↔
      1 ≤ countVerbExit (local_git_menu_step p "2" m pe ae ce pu).2 "commit" 0) ∧
    (ae = 0 → ce ≠ 0 →
      (local_git_menu_step p "2" m pe ae ce pu).1 = LoopCtl.cont ∧
      countVerb (local_git_menu_step p "2" m pe ae ce pu).2 "push" = 0 ∧
      [Event.consolePrint "ℹ️ Nothing to commit (working tree clean).",
       Event.logEntry ("Nothing to commit in " ++ p)] <:+
        (local_git_menu_step p "2" m pe ae ce pu).2) := by
  by_cases hae : ae = 0
  · subst hae
    by_cases hce : ce = 0
    · subst hce
      by_cases hpu : pu = 0
      · subst hpu
        have e := menu_step_two_ok p "2" m pe 0 0 0 rfl _ (push_action_push_ok p m)
        rw [e]
        refine ⟨?_, fun _ hc => absurd rfl hc⟩
        simp [countVerb, countVerbExit, gitVerb?, gitVerbExit?, show_menu_local]
      · have e := menu_step_two_error p "2" m pe 0 0 pu rfl _ _
          (push_action_push_fail p m pu hpu)
        rw [e]
        refine ⟨?_, fun _ hc => absurd rfl hc⟩
        simp [countVerb, countVerbExit, gitVerb?, gitVerbExit?, show_menu_local]
    · have e := menu_step_two_ok p "2" m pe 0 ce pu rfl _
        (push_action_nothing p m ce pu hce)
      rw [e]
      constructor
      · simp [countVerb, countVerbExit, gitVerb?, gitVerbExit?, show_menu_local, hce]
      · intro _ _
        refine ⟨rfl, ?_, ?_⟩
        · simp [countVerb, gitVerb?, show_menu_local]
        · exact ⟨show_menu_local p "2" ++
            [Event.consolePrint "⬆️ Pushing local changes...",
             Event.promptAsk "Commit message (default)" m,
             Event.consolePrint ("🚀 Running: " ++
               String.intercalate " " ["git", "-C", p, "add", "."]),
             Event.runCmd ["git", "-C", p, "add", "."] 0,
             Event.runCmd ["git", "-C", p, "commit", "-m", m] ce], by simp⟩
  · have e := menu_step_two_error p "2" m pe ae ce pu rfl _ _
      (push_action_add_fail p m ae ce pu hae)
    rw [e]
    refine ⟨?_, fun hc => absurd hc hae⟩
    simp [countVerb, countVerbExit, gitVerb?, gitVerbExit?, show_menu_local]

/-- C3 witness: clean working tree (`commit` exits 1): successful no-op,
no push launched. -/
theorem C3_push_iff_commit_succeeds_witness :
    (1 ≤ countVerb (local_git_menu_step "/r" "2" "m" 0 0 1 0).2 "push" ↔
      1 ≤ countVerbExit (local_git_menu_step "/r" "2" "m" 0 0 1 0).2 "commit" 0) ∧
    ((local_git_menu_step "/r" "2" "m" 0 0 1 0).1 = LoopCtl.cont ∧
      countVerb (local_git_menu_step "/r" "2" "m" 0 0 1 0).2 "push" = 0 ∧
      [Event.consolePrint "ℹ️ Nothing to commit (working tree clean).",
       Event.logEntry ("Nothing to commit in " ++ "/r")] <:+
        (local_git_menu_step "/r" "2" "m" 0 0 1 0).2) :=
  ⟨(C3_push_iff_commit_succeeds "/r" "m" 0 0 1 0).1,
   (C3_push_iff_commit_succeeds "/r" "m" 0 0 1 0).2 rfl (by decide)⟩

/-- C7: in a Push invocation where `add` and `commit` succeed and `push`
exits non-zero, the step surfaces the push failure (prints and logs it)
and continues the loop, and the subprocesses launched are exactly
`add` (exit 0), `commit` (exit 0, the local commit), and the failing
`push` — nothing afterwards touches the repository, so the local commit
is not undone. -/
theorem C7_push_failure_keeps_local_commit (p m : String) (pe pu : Nat)
    (h : pu ≠ 0) :
    (local_git_menu_step p "2" m pe 0 0 pu).1 = LoopCtl.cont ∧
    (local_git_menu_step p "2" m pe 0 0 pu).2.filterMap gitVerbExit? =
      [("add", 0), ("commit", 0), ("push", pu)] ∧
    [Event.consolePrint ("❌ Git command failed: " ++
        calledProcessErrorMsg ["git", "-C", p, "push"] pu),
     Event.logEntry ("Git command failed for " ++ p ++ ": " ++
        calledProcessErrorMsg ["git", "-C", p, "push"] pu)] <:+
      (local_git_menu_step p "2" m pe 0 0 pu).2 := by
  have e := menu_step_two_error p "2" m pe 0 0 pu rfl _ _
    (push_action_push_fail p m pu h)
  rw [e]
  refine ⟨rfl, ?_, ⟨_, rfl⟩⟩
  simp [gitVerbExit?, show_menu_local]

/-- C7 witness: push exit 1 at a concrete repository path. -/
theorem C7_push_failure_keeps_local_commit_witness :
    (local_git_menu_step "/r" "2" "m" 0 0 0 1).1 = LoopCtl.cont ∧
    (local_git_menu_step "/r" "2" "m" 0 0 0 1).2.filterMap gitVerbExit? =
      [("add", 0), ("commit", 0), ("push", 1)] ∧
    [Event.consolePrint ("❌ Git command failed: " ++
        calledProcessErrorMsg ["git", "-C", "/r", "push"] 1),
     Event.logEntry ("Git command failed for " ++ "/r" ++ ": " ++
        calledProcessErrorMsg ["git", "-C", "/r", "push"] 1)] <:+
      (local_git_menu_step "/r" "2" "m" 0 0 0 1).2 :=
  C7_push_failure_keeps_local_commit "/r" "m" 0 1 (by decide)

/-- C8: `upload_file_to_github` attempts the scratch-directory removal
exactly once, as its final action, on every combination of step
outcomes; it returns `True` exactly when no step raised; and when some
step raised, the first exception is caught, printed, and logged (the
function returns `False` instead of propagating it). -/
theorem C8_upload_cleanup_exactly_once (rn fn ow br cm tok td fp : String)
    (o : UploadOutcome) :
    ((upload_file_to_github rn fn ow br cm tok td fp o).2.countP isRmtree) = 1 ∧
    (upload_file_to_github rn fn ow br cm tok td fp o).2.getLast? =
      some (Event.rmtreeAttempt td) ∧
    (upload_file_to_github rn fn ow br cm tok td fp o).1 = (firstErr o).isNone ∧
    (∀ e, firstErr o = some e →
      (upload_file_to_github rn fn ow br cm tok td fp o).1 = false ∧
      Event.consolePrint ("Error uploading to GitHub: " ++ e) ∈
        (upload_file_to_github rn fn ow br cm tok td fp o).2 ∧
      Event.logEntry ("Error uploading to GitHub: " ++ e) ∈
        (upload_file_to_github rn fn ow br cm tok td fp o).2) := by
  obtain ⟨c, cp, a, ci, pu⟩ := o
  cases c <;> cases cp <;> cases a <;> cases ci <;> cases pu <;>
    simp [upload_file_to_github, upload_try, stepE, firstErr, isRmtree,
      List.countP_cons, List.countP_append]

/-- C8 witness: push raises after a successful commit; the scratch
directory is still removed exactly once and the failure is reported. -/
theorem C8_upload_cleanup_exactly_once_witness :
    ((upload_file_to_github "r" "o/r" "o" "main" "msg" "T" "/tmp/gh" "/f"
        ⟨none, none, none, none, some "push boom"⟩).2.countP isRmtree) = 1 ∧
    (upload_file_to_github "r" "o/r" "o" "main" "msg" "T" "/tmp/gh" "/f"
        ⟨none, none, none, none, some "push boom"⟩).2.getLast? =
      some (Event.rmtreeAttempt "/tmp/gh") ∧
    (upload_file_to_github "r" "o/r" "o" "main" "msg" "T" "/tmp/gh" "/f"
        ⟨none, none, none, none, some "push boom"⟩).1 = false ∧
    Event.consolePrint ("Error uploading to GitHub: " ++ "push boom") ∈
      (upload_file_to_github "r" "o/r" "o" "main" "msg" "T" "/tmp/gh" "/f"
        ⟨none, none, none, none, some "push boom"⟩).2 ∧
    Event.logEntry ("Error uploading to GitHub: " ++ "push boom") ∈
      (upload_file_to_github "r" "o/r" "o" "main" "msg" "T" "/tmp/gh" "/f"
        ⟨none, none, none, none, some "push boom"⟩).2 := by
  have h := C8_upload_cleanup_exactly_once "r" "o/r" "o" "main" "msg" "T"
    "/tmp/gh" "/f" ⟨none, none, none, none, some "push boom"⟩
  obtain ⟨h1, h2, h3, h4⟩ := h
  obtain ⟨h5, h6, h7⟩ := h4 "push boom" rfl
  exact ⟨h1, h2, h5, h6, h7⟩

/-- C9: whenever a menu iteration's trace holds a raised
`CalledProcessError` (a checked external command — `pull`, `add` or
`push` — that exited non-zero), the iteration catches it: control
returns to the loop (`cont`, never termination), and the handler's
console line and log line for that error are the final two events of the
iteration. -/
theorem C9_menu_errors_caught_in_action (p cA m : String)
    (pe ae ce pu : Nat)
    (h : (local_git_menu_step p cA m pe ae ce pu).2.any isCheckedFailure = true) :
    (local_git_menu_step p cA m pe ae ce pu).1 = LoopCtl.cont ∧
    ∃ e, [Event.consolePrint ("❌ Git command failed: " ++ e),
          Event.logEntry ("Git command failed for " ++ p ++ ": " ++ e)] <:+
        (local_git_menu_step p cA m pe ae ce pu).2 := by
  by_cases hc1 : pyStrip cA = "1"
  · by_cases hpe : pe = 0
    · subst hpe
      rw [menu_step_one_ok p cA m 0 ae ce pu hc1 _ (pull_action_ok p)] at h
      simp [isCheckedFailure, show_menu_local] at h
    · rw [menu_step_one_error p cA m pe ae ce pu hc1 _ _
        (pull_action_fail p pe hpe)]
      exact ⟨rfl, _, _, rfl⟩
  · by_cases hc2 : pyStrip cA = "2"
    · by_cases hae : ae = 0
      · subst hae
        by_cases hce : ce = 0
        · subst hce
          by_cases hpu : pu = 0
          · subst hpu
            rw [menu_step_two_ok p cA m pe 0 0 0 hc2 _
              (push_action_push_ok p m)] at h
            simp [isCheckedFailure, show_menu_local] at h
          · rw [menu_step_two_error p cA m pe 0 0 pu hc2 _ _
              (push_action_push_fail p m pu hpu)]
            exact ⟨rfl, _, _, rfl⟩
        · rw [menu_step_two_ok p cA m pe 0 ce pu hc2 _
            (push_action_nothing p m ce pu hce)] at h
          simp [isCheckedFailure, show_menu_local, hce] at h
      · rw [menu_step_two_error p cA m pe ae ce pu hc2 _ _
          (push_action_add_fail p m ae ce pu hae)]
        exact ⟨rfl, _, _, rfl⟩
    · by_cases hc3 : pyStrip cA = "3"
      · by_cases hpe : pe = 0
        · subst hpe
          by_cases hae : ae = 0
          · subst hae
            by_cases hce : ce = 0
            · subst hce
              by_cases hpu : pu = 0
              · subst hpu
                rw [menu_step_three_ok p cA m 0 0 0 0 hc3 _
                  (sync_action_push_ok p m)] at h
                simp [isCheckedFailure, show_menu_local] at h
              · rw [menu_step_three_error p cA m 0 0 0 pu hc3 _ _
                  (sync_action_push_fail p m pu hpu)]
                exact ⟨rfl, _, _, rfl⟩
            · rw [menu_step_three_ok p cA m 0 0 ce pu hc3 _
                (sync_action_nothing p m ce pu hce)] at h
              simp [isCheckedFailure, show_menu_local, hce] at h
          · rw [menu_step_three_error p cA m 0 ae ce pu hc3 _ _
              (sync_action_add_fail p m ae ce pu hae)]
            exact ⟨rfl, _, _, rfl⟩
        · rw [menu_step_three_error p cA m pe ae ce pu hc3 _ _
            (sync_action_pull_fail p m pe ae ce pu hpe)]
          exact ⟨rfl, _, _, rfl⟩
      · by_cases hc4 : pyStrip cA = "4"
        · have e4 : local_git_menu_step p cA m pe ae ce pu =
              (LoopCtl.brk, show_menu_local p cA ++
                [Event.consolePrint "👋 Exiting local git menu.",
                 Event.logEntry ("Exited local git menu for " ++ p)]) := by
            simp [local_git_menu_step, hc1, hc2, hc3, hc4]
          rw [e4] at h
          simp [isCheckedFailure, show_menu_local] at h
        · have e5 : local_git_menu_step p cA m pe ae ce pu =
              (LoopCtl.cont, show_menu_local p cA ++
                [Event.consolePrint "⚠️ Invalid choice. Try again."]) := by
            simp [local_git_menu_step, hc1, hc2, hc3, hc4]
          rw [e5] at h
          simp [isCheckedFailure, show_menu_local] at h

/-- C9 witness: a failing pull in choice 1. -/
theorem C9_menu_errors_caught_in_action_witness :
    (local_git_menu_step "/r" "1" "m" 1 0 0 0).2.any isCheckedFailure = true ∧
    ((local_git_menu_step "/r" "1" "m" 1 0 0 0).1 = LoopCtl.cont ∧
     ∃ e, [Event.consolePrint ("❌ Git command failed: " ++ e),
           Event.logEntry ("Git command failed for " ++ "/r" ++ ": " ++ e)] <:+
         (local_git_menu_step "/r" "1" "m" 1 0 0 0).2) :=
  ⟨by decide, C9_menu_errors_caught_in_action "/r" "1" "m" 1 0 0 0 (by decide)⟩

end GitManager
